import Mathlib

/-!
Shallow embedding of the GenoSentinel genomics microservice
(genes / genetic variants / patient-variant reports, with an outbound
clinic-service patient lookup), translated from the Python sources under
`genomics_service/genetics/`.  Database tables are modelled as lists of
rows, the clinic HTTP dependency as an oracle from patient id to outcome,
and Python exceptions as explicit `Except` results.
-/

namespace GenoSentinel

/-! ## Data model (genetics/models.py) -/

/-- Row of the `gene` table (models.Gene): integer identity, unique symbol,
optional full name and function summary. -/
structure Gene where
  id : Nat
  symbol : String
  full_name : Option String
  function_summary : Option String
deriving Repr, DecidableEq

/-- Row of the `genetic_variant` table (models.GeneticVariant): UUID identity
(modelled as a string), foreign key to a gene, optional chromosome, position,
bases, and an impact string. -/
structure GeneticVariant where
  id : String
  gene_id : Nat
  chromosome : Option String
  position : Option Int
  reference_base : Option String
  alternate_base : Option String
  impact : String
deriving Repr, DecidableEq

/-- Python `datetime.date` value as used by the report model. -/
structure PyDate where
  year : Nat
  month : Nat
  day : Nat
deriving Repr, DecidableEq

/-- Row of the `patient_variant_report` table (models.PatientVariantReport):
UUID identity, patient id, foreign key to a variant, detection date, optional
allele frequency (DECIMAL(5,2), modelled as a rational). -/
structure PatientVariantReport where
  id : String
  patient_id : String
  variant_id : String
  detection_date : PyDate
  allele_frequency : Option ℚ
deriving Repr, DecidableEq

/-- Decoded JSON object returned by the clinic service for a patient,
modelled as an association list of string fields (enough for the `name`
lookup and Python dict truthiness). -/
abbrev Payload := List (String × String)

/-! ## Python date helpers (`datetime.date.fromisoformat` / `isoformat`) -/

def digitVal (c : Char) : Nat := c.toNat - 48

def natOfDigits (cs : List Char) : Nat := cs.foldl (fun a c => a * 10 + digitVal c) 0

def isLeapYear (y : Nat) : Bool := (y % 4 == 0 && y % 100 != 0) || (y % 400 == 0)

def daysInMonth (y m : Nat) : Nat :=
  if m == 2 then (if isLeapYear y then 29 else 28)
  else if m == 4 || m == 6 || m == 9 || m == 11 then 30
  else 31

/-- Python `date.fromisoformat`: accepts exactly `YYYY-MM-DD` with valid
year/month/day ranges, otherwise raises ValueError (modelled as `none`). -/
def date_fromisoformat (s : String) : Option PyDate :=
  match s.toList with
  | [y1, y2, y3, y4, c1, m1, m2, c2, d1, d2] =>
    if c1 == '-' && c2 == '-' && [y1, y2, y3, y4, m1, m2, d1, d2].all Char.isDigit then
      let y := natOfDigits [y1, y2, y3, y4]
      let m := natOfDigits [m1, m2]
      let d := natOfDigits [d1, d2]
      if 1 ≤ y && 1 ≤ m && m ≤ 12 && 1 ≤ d && d ≤ daysInMonth y m then
        some ⟨y, m, d⟩
      else none
    else none
  | _ => none

def pad2 (n : Nat) : String := if n < 10 then "0" ++ toString n else toString n

def pad4 (n : Nat) : String :=
  if n < 10 then "000" ++ toString n
  else if n < 100 then "00" ++ toString n
  else if n < 1000 then "0" ++ toString n
  else toString n

def PyDate.isoformat (d : PyDate) : String :=
  pad4 d.year ++ "-" ++ pad2 d.month ++ "-" ++ pad2 d.day

/-! ## Errors (rest_framework exceptions as surfaced by the services) -/

/-- Exception surfaced by a service call: DRF `ValidationError` with its
dict payload (field name to list of messages), DRF `NotFound`, or a raw
Python exception that no service-level handler caught. -/
inductive ApiError where
  | validationError (payload : List (String × List String))
  | notFound (msg : String)
  | uncaughtException (exn : String)
deriving Repr, DecidableEq

def ApiError.isValidationError : ApiError → Bool
  | .validationError _ => true
  | _ => false

/-- Outcome of a database write attempted inside `transaction.atomic()`:
either the insert/delete succeeds or the driver raises an exception. -/
inductive DbOutcome where
  | ok
  | fail (exn : String)
deriving Repr, DecidableEq

/-! ## Clinic client (genetics/services/clinic_service.py) -/

/-- Outcome of the outbound `requests.get` for one patient id: an HTTP
response with a status code and decoded JSON body, a timeout, a connection
error, or any other exception (including a body that fails JSON decoding). -/
inductive HttpOutcome where
  | response (status : Nat) (body : Payload)
  | timeout
  | connectionError
  | otherException
deriving Repr, DecidableEq

/-- ClinicService.get_patient_info: 200 returns the decoded body; 404, any
other status, timeout, connection error and any other exception all return
`None`. -/
def get_patient_info (o : HttpOutcome) : Option Payload :=
  match o with
  | .response status body =>
    if status == 200 then some body
    else if status == 404 then none
    else none
  | .timeout => none
  | .connectionError => none
  | .otherException => none

/-- ClinicService.validate_patient_exists: `get_patient_info(...) is not None`. -/
def validate_patient_exists (lookup : String → Option Payload) (patient_id : String) : Bool :=
  (lookup patient_id).isSome

/-! Python dict operations used by the batch helper (`result[k] = v`, `d.get(k)`). -/

def dictGet : List (String × Payload) → String → Option Payload
  | [], _ => none
  | kv :: d, k => if kv.1 == k then some kv.2 else dictGet d k

def dictSet (d : List (String × Payload)) (k : String) (v : Payload) : List (String × Payload) :=
  if d.any (fun kv => kv.1 == k) then
    d.map (fun kv => if kv.1 == k then (k, v) else kv)
  else d ++ [(k, v)]

/-- ClinicService.get_patients_batch, instrumented with the list of patient
ids passed to `get_patient_info`, in call order (second component).  The loop
body runs `patient_data = self.get_patient_info(patient_id)` for every element
of the input list and stores the result under the id only when
`if patient_data:` holds, i.e. when the payload is a non-empty dict. -/
def get_patients_batch_trace (lookup : String → Option Payload) :
    List String → List (String × Payload) → List (String × Payload) × List String
  | [], acc => (acc, [])
  | patient_id :: rest, acc =>
    let patient_data := lookup patient_id
    let acc' := match patient_data with
      | some p => if p.isEmpty then acc else dictSet acc patient_id p
      | none => acc
    let r := get_patients_batch_trace lookup rest acc'
    (r.1, patient_id :: r.2)

/-- ClinicService.get_patients_batch: the returned mapping. -/
def get_patients_batch (lookup : String → Option Payload) (patient_ids : List String) :
    List (String × Payload) :=
  (get_patients_batch_trace lookup patient_ids []).1

/-- Result of `get_patient_info` filtered by Python dict truthiness, the
condition under which the batch loop keeps an entry. -/
def truthyLookup (lookup : String → Option Payload) (patient_id : String) : Option Payload :=
  match lookup patient_id with
  | some p => if p.isEmpty then none else some p
  | none => none

/-! ## DTOs and validation (genetics/dto/) -/

/-- GeneCreateDTO (dto/gene_dto.py). -/
structure GeneCreateDTO where
  symbol : String
  full_name : Option String := none
  function_summary : Option String := none
deriving Repr, DecidableEq

def geneSymbolRequiredMsg : String := "El símbolo del gen es requerido"
def geneSymbolTooLongMsg : String := "El símbolo del gen no puede exceder 50 caracteres"
def geneNameTooLongMsg : String := "El nombre completo no puede exceder 255 caracteres"

/-- Python truthiness of an optional string (`if self.full_name:`):
present and non-empty. -/
def optStrTruthy : Option String → Bool
  | some s => !(s == "")
  | none => false

/-- Python `str.strip()`: drop leading and trailing whitespace. -/
def pyStrip (s : String) : String :=
  String.mk (((s.toList.dropWhile Char.isWhitespace).reverse.dropWhile Char.isWhitespace).reverse)

/-- One `errors.append(msg)` guarded by `if cond:`. -/
def errIf (cond : Bool) (msg : String) : List String :=
  if cond then [msg] else []

/-- GeneCreateDTO.validate: eager collection of error strings. -/
def GeneCreateDTO.validate (dto : GeneCreateDTO) : List String :=
  errIf (dto.symbol == "" || pyStrip dto.symbol == "") geneSymbolRequiredMsg ++
  errIf (!(dto.symbol == "") && decide (dto.symbol.length > 50)) geneSymbolTooLongMsg ++
  errIf (optStrTruthy dto.full_name && decide ((dto.full_name.getD "").length > 255)) geneNameTooLongMsg

/-- VariantCreateDTO (dto/variant_dto.py); `impact` defaults to `"Unknown"`. -/
structure VariantCreateDTO where
  gene_id : Int
  chromosome : Option String := none
  position : Option Int := none
  reference_base : Option String := none
  alternate_base : Option String := none
  impact : String := "Unknown"
deriving Repr, DecidableEq

def geneIdRequiredMsg : String := "El ID del gen es requerido"
def chromosomeTooLongMsg : String := "El cromosoma no puede exceder 10 caracteres"
def positionNegativeMsg : String := "La posición debe ser un número positivo"
def referenceBaseMsg : String := "La base de referencia debe ser un solo carácter"
def alternateBaseMsg : String := "La base alternativa debe ser un solo carácter"

def valid_impacts : List String := ["Missense", "Frameshift", "Nonsense", "Silent", "Unknown"]

def impactInvalidMsg : String :=
  "El impacto debe ser uno de: " ++ String.intercalate ", " valid_impacts

/-- Condition of the position check: `self.position is not None and self.position < 0`. -/
def positionNegative : Option Int → Bool
  | some p => decide (p < 0)
  | none => false

/-- VariantCreateDTO.validate: sequential `errors.append` calls rendered as
list concatenation. -/
def VariantCreateDTO.validate (dto : VariantCreateDTO) : List String :=
  errIf (dto.gene_id == 0) geneIdRequiredMsg ++
  errIf (optStrTruthy dto.chromosome && decide ((dto.chromosome.getD "").length > 10)) chromosomeTooLongMsg ++
  errIf (positionNegative dto.position) positionNegativeMsg ++
  errIf (optStrTruthy dto.reference_base && decide ((dto.reference_base.getD "").length > 1)) referenceBaseMsg ++
  errIf (optStrTruthy dto.alternate_base && decide ((dto.alternate_base.getD "").length > 1)) alternateBaseMsg ++
  errIf (!valid_impacts.contains dto.impact) impactInvalidMsg

/-- ReportCreateDTO (dto/report_dto.py); `detection_date` is the raw
`YYYY-MM-DD` string, `allele_frequency` optional. -/
structure ReportCreateDTO where
  patient_id : String
  variant_id : String
  detection_date : String
  allele_frequency : Option ℚ := none
deriving Repr, DecidableEq

def patientIdRequiredMsg : String := "El ID del paciente es requerido"
def variantIdRequiredMsg : String := "El ID de la variante es requerido"
def detectionDateRequiredMsg : String := "La fecha de detección es requerida"
def detectionDateFormatMsg : String := "La fecha de detección debe estar en formato YYYY-MM-DD"
def alleleFrequencyRangeMsg : String := "La frecuencia alélica debe estar entre 0 y 100"

/-- Condition of the allele-frequency check:
`self.allele_frequency is not None and (… < 0 or … > 100)`. -/
def alleleFrequencyOutOfRange : Option ℚ → Bool
  | some q => decide (q < 0) || decide (q > 100)
  | none => false

/-- ReportCreateDTO.validate. -/
def ReportCreateDTO.validate (dto : ReportCreateDTO) : List String :=
  errIf (dto.patient_id == "" || pyStrip dto.patient_id == "") patientIdRequiredMsg ++
  errIf (dto.variant_id == "" || pyStrip dto.variant_id == "") variantIdRequiredMsg ++
  (if dto.detection_date == "" then [detectionDateRequiredMsg]
   else match date_fromisoformat dto.detection_date with
     | some _ => []
     | none => [detectionDateFormatMsg]) ++
  errIf (alleleFrequencyOutOfRange dto.allele_frequency) alleleFrequencyRangeMsg

/-- GeneResponseDTO (dto/gene_dto.py). -/
structure GeneResponseDTO where
  id : Nat
  symbol : String
  full_name : Option String
  function_summary : Option String
deriving Repr, DecidableEq

/-- GeneResponseDTO.from_model. -/
def GeneResponseDTO.from_model (gene : Gene) : GeneResponseDTO :=
  ⟨gene.id, gene.symbol, gene.full_name, gene.function_summary⟩

/-- ReportResponseDTO (dto/report_dto.py). -/
structure ReportResponseDTO where
  id : String
  patient_id : String
  patient_name : Option String
  variant_id : String
  gene_symbol : String
  chromosome : Option String
  position : Option Int
  impact : String
  detection_date : String
  allele_frequency : Option ℚ
deriving Repr, DecidableEq

/-- Python `p.get('name')` on a decoded patient payload. -/
def payloadGetName (p : Payload) : Option String :=
  match p.find? (fun kv => kv.1 == "name") with
  | some kv => some kv.2
  | none => none

/-- ReportResponseDTO.from_model: the report row together with its joined
variant and gene (select_related), plus the optional clinic payload.
`patient_name` uses `patient_data.get('name') if patient_data else None`
(dict truthiness), and `allele_frequency` uses
`float(report.allele_frequency) if report.allele_frequency else None`
(Decimal truthiness: zero is falsy). -/
def ReportResponseDTO.from_model (report : PatientVariantReport)
    (variant : GeneticVariant) (gene : Gene) (patient_data : Option Payload) :
    ReportResponseDTO :=
  { id := report.id
    patient_id := report.patient_id
    patient_name :=
      match patient_data with
      | some p => if p.isEmpty then none else payloadGetName p
      | none => none
    variant_id := variant.id
    gene_symbol := gene.symbol
    chromosome := variant.chromosome
    position := variant.position
    impact := variant.impact
    detection_date := report.detection_date.isoformat
    allele_frequency :=
      match report.allele_frequency with
      | some q => if q == 0 then none else some q
      | none => none }

/-! ## Gene repository (genetics/repositories/gene_repository.py) -/

/-- GeneRepository.find_by_id: `Gene.objects.get(pk=...)` with DoesNotExist
mapped to `None`. -/
def find_by_id (genes : List Gene) (gene_id : Nat) : Option Gene :=
  genes.find? (fun g => g.id == gene_id)

/-- GeneRepository.exists_by_symbol: `Gene.objects.filter(symbol=symbol).exists()`,
exact string equality. -/
def exists_by_symbol (genes : List Gene) (symbol : String) : Bool :=
  genes.any (fun g => g.symbol == symbol)

/-- Lexicographic comparison of code-point sequences (the order `ORDER BY
symbol` yields, modelled at binary collation). -/
def strLeAux : List Char → List Char → Bool
  | [], _ => true
  | _ :: _, [] => false
  | a :: as, b :: bs =>
    if a.toNat < b.toNat then true
    else if b.toNat < a.toNat then false
    else strLeAux as bs

def strLe (a b : String) : Bool := strLeAux a.toList b.toList

/-- Order used by the `gene` table's `Meta.ordering = ['symbol']`. -/
def symbolLE (a b : Gene) : Prop := strLe a.symbol b.symbol = true

instance : DecidableRel symbolLE := fun g h =>
  inferInstanceAs (Decidable (strLe g.symbol h.symbol = true))

/-- Genes in the order `Gene.objects.all()` yields them: the model's
`Meta.ordering = ['symbol']`. -/
def genesBySymbol (genes : List Gene) : List Gene :=
  genes.insertionSort symbolLE

/-- GeneRepository.paginate: `start=(page-1)*page_size`, `end=start+page_size`,
Python slice `Gene.objects.all()[start:end]` over the symbol-ordered rows. -/
def paginate (genes : List Gene) (page : Nat) (page_size : Nat) : List Gene :=
  ((genesBySymbol genes).drop ((page - 1) * page_size)).take page_size

/-- Dependent variants of a gene (`gene.variants.count()` counts rows of
`genetic_variant` whose `gene_id` references the gene). -/
def variantCount (variants : List GeneticVariant) (gene_id : Nat) : Nat :=
  (variants.filter (fun v => v.gene_id == gene_id)).length

/-! ## Gene service (genetics/services/gene_service.py) -/

def symbolDuplicateMsg : String := "Ya existe un gen con este símbolo"
def geneCreateFailedMsg : String := "Error al crear el gen"

/-- GeneService.create_gene.  `fresh_id` is the id the database assigns on a
successful insert; `db` is the outcome of the write inside
`transaction.atomic()` (a failure is caught and re-wrapped as a generic
ValidationError).  Returns the raised error or the response DTO, together
with the resulting gene table. -/
def create_gene (genes : List Gene) (fresh_id : Nat) (db : DbOutcome)
    (dto : GeneCreateDTO) : Except ApiError GeneResponseDTO × List Gene :=
  let errors := dto.validate
  if !errors.isEmpty then
    (.error (.validationError [("errors", errors)]), genes)
  else if exists_by_symbol genes dto.symbol then
    (.error (.validationError [("symbol", [symbolDuplicateMsg])]), genes)
  else
    match db with
    | .fail _ => (.error (.validationError [("error", [geneCreateFailedMsg])]), genes)
    | .ok =>
      let gene : Gene := ⟨fresh_id, dto.symbol, dto.full_name, dto.function_summary⟩
      (.ok (GeneResponseDTO.from_model gene), genes ++ [gene])

def geneNotFoundMsg : String := "Gen no encontrado"

def deleteGeneBlockedMsg (count : Nat) : String :=
  s!"No se puede eliminar el gen porque tiene {count} variante(s) asociada(s)"

def geneDeleteFailedMsg : String := "Error al eliminar el gen"

/-- GeneService.delete_gene.  Finds the gene (NotFound when absent), counts
dependent variants and refuses with a count-bearing ValidationError when the
count is nonzero; otherwise deletes the row inside `transaction.atomic()`
(`db` is the write outcome; a failure other than the re-raised
ValidationError is wrapped).  Returns the raised error (if any) and the
resulting gene and variant tables. -/
def delete_gene (genes : List Gene) (variants : List GeneticVariant)
    (db : DbOutcome) (gene_id : Nat) :
    Except ApiError Unit × List Gene × List GeneticVariant :=
  match find_by_id genes gene_id with
  | none => (.error (.notFound geneNotFoundMsg), genes, variants)
  | some _ =>
    let count := variantCount variants gene_id
    if count > 0 then
      (.error (.validationError [("error", [deleteGeneBlockedMsg count])]), genes, variants)
    else
      match db with
      | .fail _ => (.error (.validationError [("error", [geneDeleteFailedMsg])]), genes, variants)
      | .ok =>
        (.ok (), genes.filter (fun g => !(g.id == gene_id)),
          variants.filter (fun v => !(v.gene_id == gene_id)))

/-! ## Report service (genetics/services/report_service.py) -/

/-- Lookup of a variant row by primary key
(`GeneticVariant.objects.…get(pk=dto.variant_id)`). -/
def findVariant (variants : List GeneticVariant) (variant_id : String) :
    Option GeneticVariant :=
  variants.find? (fun v => v.id == variant_id)

/-- The gene joined by `select_related('gene')`.  The database's foreign key
guarantees the referenced gene row exists; the default is never reached on a
referentially intact store. -/
def selectRelatedGene (genes : List Gene) (v : GeneticVariant) : Gene :=
  (genes.find? (fun g => g.id == v.gene_id)).getD ⟨0, "", none, none⟩

def variantMissingMsg : String := "La variante especificada no existe"
def patientMissingMsg : String := "El paciente especificado no existe en el sistema de clínica"

/-- ReportService.create_report.  Arguments: the variant and gene tables,
the clinic oracle (result of `get_patient_info` per patient id), the current
report table, the outcome of the insert inside `transaction.atomic()`, the
UUID the database row receives, and the DTO.  The body follows the source:
validate the DTO; resolve the variant (DoesNotExist → field-scoped
ValidationError); confirm the patient via the clinic service (absent →
field-scoped ValidationError); insert inside a transaction — note the source
wraps this block in no try/except, so a driver exception propagates uncaught
and the transaction leaves the table unchanged; re-fetch the patient payload
and build the response.  Returns the outcome and the resulting report
table. -/
def create_report (variants : List GeneticVariant) (genes : List Gene)
    (lookup : String → Option Payload) (reports : List PatientVariantReport)
    (db : DbOutcome) (fresh_id : String) (dto : ReportCreateDTO) :
    Except ApiError ReportResponseDTO × List PatientVariantReport :=
  let errors := dto.validate
  if !errors.isEmpty then
    (.error (.validationError [("errors", errors)]), reports)
  else
    match findVariant variants dto.variant_id with
    | none => (.error (.validationError [("variant_id", [variantMissingMsg])]), reports)
    | some variant =>
      if !validate_patient_exists lookup dto.patient_id then
        (.error (.validationError [("patient_id", [patientMissingMsg])]), reports)
      else
        match db with
        | .fail exn => (.error (.uncaughtException exn), reports)
        | .ok =>
          match date_fromisoformat dto.detection_date with
          | none => (.error (.uncaughtException "ValueError"), reports)
          | some d =>
            let report : PatientVariantReport :=
              ⟨fresh_id, pyStrip dto.patient_id, variant.id, d, dto.allele_frequency⟩
            let patient_data := lookup dto.patient_id
            (.ok (ReportResponseDTO.from_model report variant
                (selectRelatedGene genes variant) patient_data),
              reports ++ [report])

/-! ## Theorems -/

/-- Membership in a guarded single-error segment. -/
theorem mem_errIf {a msg : String} {c : Bool} : a ∈ errIf c msg ↔ c = true ∧ a = msg := by
  cases c <;> simp [errIf]

/-- Every outcome that is not a 200 response maps to `none`. -/
theorem get_patient_info_eq_none (o : HttpOutcome)
    (h : ∀ body, o ≠ .response 200 body) : get_patient_info o = none := by
  cases o with
  | response status body =>
    have hs : status ≠ 200 := fun e => h body (by rw [e])
    simp [get_patient_info, hs]
  | timeout => rfl
  | connectionError => rfl
  | otherException => rfl

/-- Claim C1: `ClinicService.get_patient_info` returns the decoded payload
exactly on HTTP 200 and `None` on 404, on any other status, on timeout, on
connection failure and on any other exception; every non-200 outcome yields
the same caller-visible result. -/
theorem clinic_get_patient_info_contract :
    (∀ body, get_patient_info (.response 200 body) = some body) ∧
    (∀ body, get_patient_info (.response 404 body) = none) ∧
    (∀ status body, status ≠ 200 → get_patient_info (.response status body) = none) ∧
    get_patient_info .timeout = none ∧
    get_patient_info .connectionError = none ∧
    get_patient_info .otherException = none ∧
    (∀ o o', (∀ body, o ≠ .response 200 body) → (∀ body, o' ≠ .response 200 body) →
      get_patient_info o = get_patient_info o') := by
  refine ⟨fun body => rfl, fun body => rfl, ?_, rfl, rfl, rfl, ?_⟩
  · intro status body h
    exact get_patient_info_eq_none _ (fun b e => by cases e; exact h rfl)
  · intro o o' h h'
    rw [get_patient_info_eq_none o h, get_patient_info_eq_none o' h']

/-- Witness for C1 at concrete outcomes. -/
theorem clinic_get_patient_info_contract_witness :
    get_patient_info (.response 200 [("name", "Ada")]) = some [("name", "Ada")] ∧
    (503 : Nat) ≠ 200 ∧
    get_patient_info (.response 503 [("oops", "x")]) = none :=
  ⟨clinic_get_patient_info_contract.1 _, by decide,
    clinic_get_patient_info_contract.2.2.1 503 _ (by decide)⟩

/-- The joined impact message as a literal. -/
theorem impactInvalidMsg_eq :
    impactInvalidMsg =
      "El impacto debe ser uno de: Missense, Frameshift, Nonsense, Silent, Unknown" := by
  decide

/-- Claim C8: `VariantCreateDTO.validate` reports a position error for
position = -1 and none for position = 0; reports an impact error for
impact = "Pathogenic"; reports no impact error when the field is omitted,
because the dataclass default "Unknown" belongs to the closed impact set. -/
theorem variant_dto_validate_spec :
    (∀ dto : VariantCreateDTO, dto.position = some (-1) →
      positionNegativeMsg ∈ dto.validate) ∧
    (∀ dto : VariantCreateDTO, dto.position = some 0 →
      positionNegativeMsg ∉ dto.validate) ∧
    (∀ dto : VariantCreateDTO, dto.impact = "Pathogenic" →
      impactInvalidMsg ∈ dto.validate) ∧
    (∀ dto : VariantCreateDTO, dto.impact = "Unknown" →
      impactInvalidMsg ∉ dto.validate) ∧
    ({ gene_id := 1 } : VariantCreateDTO).impact = "Unknown" ∧
    "Unknown" ∈ valid_impacts := by
  refine ⟨?_, ?_, ?_, ?_, rfl, by decide⟩
  · intro dto h
    simp [VariantCreateDTO.validate, mem_errIf, positionNegative, h]
  · intro dto h
    simp [VariantCreateDTO.validate, mem_errIf, positionNegative, h,
      geneIdRequiredMsg, chromosomeTooLongMsg, positionNegativeMsg,
      referenceBaseMsg, alternateBaseMsg, impactInvalidMsg_eq, valid_impacts]
  · intro dto h
    simp [VariantCreateDTO.validate, mem_errIf, h, valid_impacts]
  · intro dto h
    simp [VariantCreateDTO.validate, mem_errIf, h, valid_impacts,
      geneIdRequiredMsg, chromosomeTooLongMsg, positionNegativeMsg,
      referenceBaseMsg, alternateBaseMsg, impactInvalidMsg_eq]

/-- Witness for C8 at concrete DTOs. -/
theorem variant_dto_validate_spec_witness :
    (({ gene_id := 1, position := some (-1) } : VariantCreateDTO).position = some (-1) ∧
      positionNegativeMsg ∈ ({ gene_id := 1, position := some (-1) } : VariantCreateDTO).validate) ∧
    (({ gene_id := 1, position := some 0 } : VariantCreateDTO).position = some 0 ∧
      positionNegativeMsg ∉ ({ gene_id := 1, position := some 0 } : VariantCreateDTO).validate) ∧
    (({ gene_id := 1, impact := "Pathogenic" } : VariantCreateDTO).impact = "Pathogenic" ∧
      impactInvalidMsg ∈ ({ gene_id := 1, impact := "Pathogenic" } : VariantCreateDTO).validate) ∧
    (({ gene_id := 1 } : VariantCreateDTO).impact = "Unknown" ∧
      impactInvalidMsg ∉ ({ gene_id := 1 } : VariantCreateDTO).validate) :=
  ⟨⟨rfl, variant_dto_validate_spec.1 _ rfl⟩,
    ⟨rfl, variant_dto_validate_spec.2.1 _ rfl⟩,
    ⟨rfl, variant_dto_validate_spec.2.2.1 _ rfl⟩,
    ⟨rfl, variant_dto_validate_spec.2.2.2.1 _ rfl⟩⟩

/-- Sample rows used by concrete witnesses. -/
def sampleGene : Gene := ⟨1, "BRCA1", some "Breast cancer 1", none⟩

def sampleVariant : GeneticVariant := ⟨"v1", 1, some "17", some 43044295, none, none, "Missense"⟩

def sampleReportDTO : ReportCreateDTO :=
  { patient_id := "p1", variant_id := "v1", detection_date := "2024-01-15" }

/-- Claim C2: for a DTO that passes validation, `create_report` fails with a
`variant_id`-scoped ValidationError whenever the variant is missing —
regardless of the clinic oracle, so the variant check precedes the patient
check — and with a `patient_id`-scoped ValidationError whenever the variant
exists but the clinic lookup resolves the patient to absent. -/
theorem create_report_existence_checks (variants : List GeneticVariant)
    (genes : List Gene) (lookup : String → Option Payload)
    (reports : List PatientVariantReport) (db : DbOutcome) (fresh_id : String)
    (dto : ReportCreateDTO) (hval : dto.validate = []) :
    (findVariant variants dto.variant_id = none →
      (create_report variants genes lookup reports db fresh_id dto).1 =
        .error (.validationError [("variant_id", [variantMissingMsg])])) ∧
    (∀ v, findVariant variants dto.variant_id = some v →
      lookup dto.patient_id = none →
      (create_report variants genes lookup reports db fresh_id dto).1 =
        .error (.validationError [("patient_id", [patientMissingMsg])])) := by
  constructor
  · intro hv
    simp [create_report, hval, hv]
  · intro v hv hp
    simp [create_report, hval, hv, validate_patient_exists, hp]

/-- Witness for C2: an unknown variant id yields the `variant_id` error even
with an all-knowing clinic oracle; a known variant with an unknown patient
yields the `patient_id` error. -/
theorem create_report_existence_checks_witness :
    sampleReportDTO.validate = [] ∧
    (create_report [] [sampleGene] (fun _ => some [("name", "Ana")]) [] .ok "r1"
        sampleReportDTO).1 =
      .error (.validationError [("variant_id", [variantMissingMsg])]) ∧
    (create_report [sampleVariant] [sampleGene] (fun _ => none) [] .ok "r1"
        sampleReportDTO).1 =
      .error (.validationError [("patient_id", [patientMissingMsg])]) :=
  ⟨by decide,
    (create_report_existence_checks [] [sampleGene] (fun _ => some [("name", "Ana")])
      [] .ok "r1" sampleReportDTO (by decide)).1 (by decide),
    (create_report_existence_checks [sampleVariant] [sampleGene] (fun _ => none)
      [] .ok "r1" sampleReportDTO (by decide)).2 sampleVariant (by decide) rfl⟩

/-- Whatever the inputs, `create_report` leaves the report table unchanged or
appends exactly one row: the transaction admits no partial state. -/
theorem create_report_all_or_nothing (variants : List GeneticVariant)
    (genes : List Gene) (lookup : String → Option Payload)
    (reports : List PatientVariantReport) (db : DbOutcome) (fresh_id : String)
    (dto : ReportCreateDTO) :
    (create_report variants genes lookup reports db fresh_id dto).2 = reports ∨
    ∃ rep, (create_report variants genes lookup reports db fresh_id dto).2 =
      reports ++ [rep] := by
  cases hval : dto.validate.isEmpty with
  | false => left; simp [create_report, hval]
  | true =>
    cases hv : findVariant variants dto.variant_id with
    | none => left; simp [create_report, hval, hv]
    | some v =>
      cases hp : validate_patient_exists lookup dto.patient_id with
      | false => left; simp [create_report, hval, hv, hp]
      | true =>
        cases db with
        | fail exn => left; simp [create_report, hval, hv, hp]
        | ok =>
          cases hd : date_fromisoformat dto.detection_date with
          | none => left; simp [create_report, hval, hv, hp, hd]
          | some d =>
            right
            exact ⟨⟨fresh_id, pyStrip dto.patient_id, v.id, d, dto.allele_frequency⟩,
              by simp [create_report, hval, hv, hp, hd]⟩

/-- Whether a service call raised a ValidationError. -/
def raisedValidationError : Except ApiError ReportResponseDTO → Bool
  | .error e => e.isValidationError
  | .ok _ => false

/-- Counterexample to claim C3: with a valid DTO, an existing variant, a
known patient and a failing insert, `create_report` surfaces the raw
database exception, not a ValidationError — the source wraps the
transactional block in no try/except. -/
theorem create_report_unwrapped_failure_cex :
    (create_report [sampleVariant] [sampleGene] (fun _ => some [("name", "Ana")])
        [] (.fail "IntegrityError") "r1" sampleReportDTO).1 =
      .error (.uncaughtException "IntegrityError") ∧
    raisedValidationError
      (create_report [sampleVariant] [sampleGene] (fun _ => some [("name", "Ana")])
        [] (.fail "IntegrityError") "r1" sampleReportDTO).1 = false ∧
    (create_report [sampleVariant] [sampleGene] (fun _ => some [("name", "Ana")])
        [] (.fail "IntegrityError") "r1" sampleReportDTO).2 = [] :=
  ⟨rfl, rfl, rfl⟩

/-- Claim C3 as amended: a persistence failure during the insert is not
caught at the service boundary — it propagates out of `create_report` as the
raw exception, with no generic "error creating report" ValidationError —
while the transaction still guarantees the report row either fully exists or
does not exist at all. -/
theorem create_report_persistence_propagates (variants : List GeneticVariant)
    (genes : List Gene) (lookup : String → Option Payload)
    (reports : List PatientVariantReport) (fresh_id : String)
    (dto : ReportCreateDTO) (exn : String) (v : GeneticVariant)
    (hval : dto.validate = [])
    (hv : findVariant variants dto.variant_id = some v)
    (hp : (lookup dto.patient_id).isSome = true) :
    create_report variants genes lookup reports (.fail exn) fresh_id dto =
      (.error (.uncaughtException exn), reports) ∧
    ApiError.isValidationError (ApiError.uncaughtException exn) = false ∧
    (∀ db : DbOutcome,
      (create_report variants genes lookup reports db fresh_id dto).2 = reports ∨
      ∃ rep, (create_report variants genes lookup reports db fresh_id dto).2 =
        reports ++ [rep]) := by
  refine ⟨?_, rfl, fun db => create_report_all_or_nothing _ _ _ _ _ _ _⟩
  simp [create_report, hval, hv, validate_patient_exists, hp]

/-- Witness for C3 (amended) at a concrete valid request with a failing
insert. -/
theorem create_report_persistence_propagates_witness :
    sampleReportDTO.validate = [] ∧
    findVariant [sampleVariant] sampleReportDTO.variant_id = some sampleVariant ∧
    ((fun _ : String => some [("name", "Ana")]) sampleReportDTO.patient_id).isSome = true ∧
    create_report [sampleVariant] [sampleGene] (fun _ => some [("name", "Ana")])
        [] (.fail "OperationalError") "r1" sampleReportDTO =
      (.error (.uncaughtException "OperationalError"), []) :=
  ⟨by decide, by decide, rfl,
    (create_report_persistence_propagates [sampleVariant] [sampleGene]
      (fun _ => some [("name", "Ana")]) [] "r1" sampleReportDTO "OperationalError"
      sampleVariant (by decide) (by decide) rfl).1⟩

/-- Claim C4: whenever a gene exists and has at least one associated
variant, `delete_gene` fails with a ValidationError stating the exact
dependent variant count — whatever the database write outcome would have
been — and the gene table and variant table are returned unchanged. -/
theorem delete_gene_blocked_by_variants (genes : List Gene)
    (variants : List GeneticVariant) (db : DbOutcome) (gene_id : Nat)
    (g : Gene) (hg : find_by_id genes gene_id = some g)
    (hc : variantCount variants gene_id > 0) :
    delete_gene genes variants db gene_id =
      (.error (.validationError
        [("error", [deleteGeneBlockedMsg (variantCount variants gene_id)])]),
        genes, variants) := by
  simp [delete_gene, hg, hc]

/-- Witness for C4: one gene with one dependent variant; the error carries
the count 1 and both tables are untouched. -/
theorem delete_gene_blocked_by_variants_witness :
    find_by_id [sampleGene] 1 = some sampleGene ∧
    variantCount [sampleVariant] 1 > 0 ∧
    delete_gene [sampleGene] [sampleVariant] .ok 1 =
      (.error (.validationError [("error", [deleteGeneBlockedMsg 1])]),
        [sampleGene], [sampleVariant]) :=
  ⟨by decide, by decide,
    delete_gene_blocked_by_variants [sampleGene] [sampleVariant] .ok 1 sampleGene
      (by decide) (by decide)⟩

/-- Claim C5: with a DTO that passes validation, `create_gene` fails with the
symbol-duplicate ValidationError exactly when some existing gene's symbol is
equal to the DTO's symbol under case-sensitive string equality; when no
existing symbol is exactly equal (in particular when one differs only in
case), the duplicate error is never raised. -/
theorem create_gene_duplicate_symbol_exact (genes : List Gene)
    (fresh_id : Nat) (db : DbOutcome) (dto : GeneCreateDTO)
    (hval : dto.validate = []) :
    ((∃ g ∈ genes, g.symbol = dto.symbol) →
      (create_gene genes fresh_id db dto).1 =
        .error (.validationError [("symbol", [symbolDuplicateMsg])])) ∧
    ((∀ g ∈ genes, g.symbol ≠ dto.symbol) →
      (create_gene genes fresh_id db dto).1 ≠
        .error (.validationError [("symbol", [symbolDuplicateMsg])])) := by
  constructor
  · rintro ⟨g, hg, he⟩
    have hex : exists_by_symbol genes dto.symbol = true := by
      simp only [exists_by_symbol, List.any_eq_true]
      exact ⟨g, hg, by simp [he]⟩
    simp [create_gene, hval, hex]
  · intro hno
    have hex : exists_by_symbol genes dto.symbol = false := by
      simp only [exists_by_symbol, List.any_eq_false]
      intro g hg
      simp [hno g hg]
    cases db with
    | fail exn =>
      simp [create_gene, hval, hex, geneCreateFailedMsg, symbolDuplicateMsg]
    | ok => simp [create_gene, hval, hex]

/-- Witness for C5: an exact duplicate of "BRCA1" is refused while the
case-variant "brca1" is not reported as a duplicate. -/
theorem create_gene_duplicate_symbol_exact_witness :
    ({ symbol := "BRCA1" } : GeneCreateDTO).validate = [] ∧
    ({ symbol := "brca1" } : GeneCreateDTO).validate = [] ∧
    (create_gene [sampleGene] 2 .ok { symbol := "BRCA1" }).1 =
      .error (.validationError [("symbol", [symbolDuplicateMsg])]) ∧
    (create_gene [sampleGene] 2 .ok { symbol := "brca1" }).1 ≠
      .error (.validationError [("symbol", [symbolDuplicateMsg])]) :=
  ⟨by decide, by decide,
    (create_gene_duplicate_symbol_exact [sampleGene] 2 .ok { symbol := "BRCA1" }
      (by decide)).1 ⟨sampleGene, by decide, by decide⟩,
    (create_gene_duplicate_symbol_exact [sampleGene] 2 .ok { symbol := "brca1" }
      (by decide)).2 (by decide)⟩

/-- Claim C7: for a DTO that passes validation, when `create_gene` succeeds
(fresh database id, clean insert), `find_by_id` on the returned id yields a
gene whose symbol, full name and function summary are exactly the DTO's
fields, and the response DTO echoes the same fields. -/
theorem create_gene_find_by_id_roundtrip (genes : List Gene) (fresh_id : Nat)
    (dto : GeneCreateDTO) (resp : GeneResponseDTO)
    (hval : dto.validate = [])
    (hfresh : ∀ g ∈ genes, g.id ≠ fresh_id)
    (hok : (create_gene genes fresh_id .ok dto).1 = .ok resp) :
    find_by_id (create_gene genes fresh_id .ok dto).2 resp.id =
      some ⟨fresh_id, dto.symbol, dto.full_name, dto.function_summary⟩ ∧
    resp.symbol = dto.symbol ∧ resp.full_name = dto.full_name ∧
    resp.function_summary = dto.function_summary := by
  cases hex : exists_by_symbol genes dto.symbol with
  | true => simp [create_gene, hval, hex] at hok
  | false =>
    simp only [create_gene, hval, hex, List.isEmpty_nil, Bool.not_true,
      Bool.false_eq_true, if_false] at hok ⊢
    rw [Except.ok.injEq] at hok
    subst hok
    refine ⟨?_, rfl, rfl, rfl⟩
    have hnone : genes.find? (fun g => g.id == fresh_id) = none :=
      List.find?_eq_none.mpr (fun g hg => by simpa using hfresh g hg)
    simp [find_by_id, GeneResponseDTO.from_model, List.find?_append, hnone]

/-- Witness for C7: creating "BRCA1" in an empty table and looking up the
returned id yields the DTO's fields. -/
theorem create_gene_find_by_id_roundtrip_witness :
    ({ symbol := "BRCA1", full_name := some "Breast cancer 1" } : GeneCreateDTO).validate = [] ∧
    (create_gene [] 1 .ok { symbol := "BRCA1", full_name := some "Breast cancer 1" }).1 =
      .ok ⟨1, "BRCA1", some "Breast cancer 1", none⟩ ∧
    find_by_id (create_gene [] 1 .ok
        { symbol := "BRCA1", full_name := some "Breast cancer 1" }).2 1 =
      some ⟨1, "BRCA1", some "Breast cancer 1", none⟩ :=
  ⟨by decide, rfl,
    (create_gene_find_by_id_roundtrip [] 1
      { symbol := "BRCA1", full_name := some "Breast cancer 1" }
      ⟨1, "BRCA1", some "Breast cancer 1", none⟩
      (by decide) (by intro g hg; cases hg) rfl).1⟩

/-- The lexicographic comparison is total. -/
theorem strLeAux_total : ∀ as bs : List Char, strLeAux as bs = true ∨ strLeAux bs as = true := by
  intro as
  induction as with
  | nil => intro bs; left; rfl
  | cons a as ih =>
    intro bs
    cases bs with
    | nil => right; rfl
    | cons b bs =>
      by_cases h1 : a.toNat < b.toNat
      · left; simp [strLeAux, h1]
      · by_cases h2 : b.toNat < a.toNat
        · right; simp [strLeAux, h1, h2]
        · rcases ih bs with h | h
          · left; simp [strLeAux, h1, h2, h]
          · right; simp [strLeAux, h1, h2, h]

/-- Head characterization of the lexicographic comparison. -/
theorem strLeAux_cons (a b : Char) (as bs : List Char) :
    strLeAux (a :: as) (b :: bs) = true ↔
      a.toNat < b.toNat ∨ (a.toNat = b.toNat ∧ strLeAux as bs = true) := by
  simp only [strLeAux]
  by_cases h1 : a.toNat < b.toNat
  · simp [h1]
  · by_cases h2 : b.toNat < a.toNat
    · have hne : a.toNat ≠ b.toNat := by omega
      simp [h1, h2, hne]
    · have he : a.toNat = b.toNat := by omega
      simp [h1, h2, he]

/-- The lexicographic comparison is transitive. -/
theorem strLeAux_trans : ∀ as bs cs : List Char,
    strLeAux as bs = true → strLeAux bs cs = true → strLeAux as cs = true := by
  intro as
  induction as with
  | nil => intro bs cs _ _; rfl
  | cons a as ih =>
    intro bs cs hab hbc
    cases bs with
    | nil => simp [strLeAux] at hab
    | cons b bs =>
      cases cs with
      | nil => simp [strLeAux] at hbc
      | cons c cs =>
        rw [strLeAux_cons] at hab hbc ⊢
        rcases hab with h1 | ⟨h1, hab'⟩ <;> rcases hbc with h2 | ⟨h2, hbc'⟩
        · left; omega
        · left; omega
        · left; omega
        · right; exact ⟨by omega, ih bs cs hab' hbc'⟩

instance : IsTotal Gene symbolLE :=
  ⟨fun a b => strLeAux_total a.symbol.toList b.symbol.toList⟩

instance : IsTrans Gene symbolLE :=
  ⟨fun a b c => strLeAux_trans a.symbol.toList b.symbol.toList c.symbol.toList⟩

/-- Claim C6: for every page ≥ 1, `paginate` returns the slice of the
symbol-ordered gene rows starting at offset (page-1)*page_size, of length at
most page_size and itself symbol-ordered; in particular over 25 genes,
page 2 with page size 10 holds exactly the 11th through 20th ordered genes. -/
theorem paginate_slice_spec (genes : List Gene) (page page_size : Nat)
    (_hp : 1 ≤ page) :
    (∀ i : Nat, (paginate genes page page_size)[i]? =
      if i < page_size then (genesBySymbol genes)[(page - 1) * page_size + i]?
      else none) ∧
    (paginate genes page page_size).length ≤ page_size ∧
    (paginate genes page page_size).Pairwise symbolLE ∧
    (genes.length = 25 →
      (paginate genes 2 10).length = 10 ∧
      ∀ i : Nat, i < 10 → (paginate genes 2 10)[i]? = (genesBySymbol genes)[10 + i]?) := by
  have hslice : ∀ (p ps i : Nat), (paginate genes p ps)[i]? =
      if i < ps then (genesBySymbol genes)[(p - 1) * ps + i]? else none := by
    intro p ps i
    simp only [paginate, List.getElem?_take, List.getElem?_drop]
  refine ⟨hslice page page_size, List.length_take_le _ _, ?_, ?_⟩
  · exact List.Pairwise.sublist ((List.take_sublist _ _).trans (List.drop_sublist _ _))
      (List.sorted_insertionSort symbolLE genes)
  · intro h25
    have hlen : (genesBySymbol genes).length = 25 := by
      simpa [genesBySymbol, List.length_insertionSort] using h25
    constructor
    · simp [paginate, List.length_take, List.length_drop, hlen]
    · intro i hi
      rw [hslice 2 10 i, if_pos hi]

/-- Witness for C6: a concrete three-gene store paginated with page 2,
size 1 returns the middle gene in symbol order. -/
theorem paginate_slice_spec_witness :
    (1 : Nat) ≤ 2 ∧
    (paginate [⟨1, "TP53", none, none⟩, ⟨2, "BRCA1", none, none⟩,
        ⟨3, "EGFR", none, none⟩] 2 1)[0]? =
      (genesBySymbol [⟨1, "TP53", none, none⟩, ⟨2, "BRCA1", none, none⟩,
        ⟨3, "EGFR", none, none⟩])[1]? ∧
    (genesBySymbol [⟨1, "TP53", none, none⟩, ⟨2, "BRCA1", none, none⟩,
        ⟨3, "EGFR", none, none⟩])[1]? = some ⟨3, "EGFR", none, none⟩ :=
  ⟨by decide,
    by
      have h := (paginate_slice_spec
        [⟨1, "TP53", none, none⟩, ⟨2, "BRCA1", none, none⟩, ⟨3, "EGFR", none, none⟩]
        2 1 (by decide)).1 0
      simpa using h,
    by decide⟩

/-- Overwriting the entries keyed `k` and then reading `k` yields the new
value, provided some entry with key `k` was present. -/
theorem dictGet_overwrite_hit (d : List (String × Payload)) (k : String) (v : Payload)
    (hany : d.any (fun kv => kv.1 == k) = true) :
    dictGet (d.map (fun kv => if kv.1 == k then (k, v) else kv)) k = some v := by
  induction d with
  | nil => simp at hany
  | cons kv d ih =>
    rw [List.map_cons]
    by_cases hh : kv.1 = k
    · rw [if_pos (by simp [hh])]
      simp only [dictGet]
      rw [if_pos (by simp)]
    · rw [if_neg (by simp [hh])]
      simp only [dictGet]
      rw [if_neg (by simp [hh])]
      exact ih (by simpa [List.any_cons, hh] using hany)

/-- Overwriting the entries keyed `k` leaves reads of any other key
unchanged. -/
theorem dictGet_overwrite_miss (d : List (String × Payload)) (k k' : String)
    (v : Payload) (hk : k' ≠ k) :
    dictGet (d.map (fun kv => if kv.1 == k then (k, v) else kv)) k' =
      dictGet d k' := by
  induction d with
  | nil => rfl
  | cons kv d ih =>
    rw [List.map_cons]
    by_cases hh : kv.1 = k
    · rw [if_pos (by simp [hh])]
      simp only [dictGet]
      rw [if_neg (by simp [Ne.symm hk]), if_neg (by simp [hh, Ne.symm hk])]
      exact ih
    · rw [if_neg (by simp [hh])]
      simp only [dictGet]
      by_cases hx : kv.1 = k'
      · rw [if_pos (by simp [hx]), if_pos (by simp [hx])]
      · rw [if_neg (by simp [hx]), if_neg (by simp [hx])]
        exact ih

/-- Appending a fresh entry keyed `k` makes `k` readable when no entry with
key `k` existed. -/
theorem dictGet_append_hit (d : List (String × Payload)) (k : String) (v : Payload)
    (hany : d.any (fun kv => kv.1 == k) = false) :
    dictGet (d ++ [(k, v)]) k = some v := by
  induction d with
  | nil => simp [dictGet]
  | cons kv d ih =>
    have hh : ¬kv.1 = k := by
      intro he
      simp [List.any_cons, he] at hany
    have hany' : d.any (fun kv => kv.1 == k) = false := by
      simpa [List.any_cons, hh] using hany
    simp [dictGet, hh, ih hany']

/-- Appending an entry keyed `k` leaves reads of any other key unchanged. -/
theorem dictGet_append_miss (d : List (String × Payload)) (k k' : String)
    (v : Payload) (hk : k' ≠ k) :
    dictGet (d ++ [(k, v)]) k' = dictGet d k' := by
  induction d with
  | nil => simp [dictGet, Ne.symm hk]
  | cons kv d ih =>
    by_cases hx : kv.1 = k'
    · simp [dictGet, hx]
    · simp [dictGet, hx, ih]

/-- Reading a key after a dict store: the stored value under that key,
everything else unchanged. -/
theorem dictGet_dictSet (d : List (String × Payload)) (k : String) (v : Payload)
    (k' : String) :
    dictGet (dictSet d k v) k' = if k' = k then some v else dictGet d k' := by
  by_cases hk : k' = k
  · subst hk
    rw [if_pos rfl]
    unfold dictSet
    cases hany : d.any (fun kv => kv.1 == k') with
    | false =>
      simp only [hany, Bool.false_eq_true, if_false]
      exact dictGet_append_hit d k' v hany
    | true =>
      simp only [hany, if_true]
      exact dictGet_overwrite_hit d k' v hany
  · rw [if_neg hk]
    unfold dictSet
    cases hany : d.any (fun kv => kv.1 == k) with
    | false =>
      simp only [hany, Bool.false_eq_true, if_false]
      exact dictGet_append_miss d k k' v hk
    | true =>
      simp only [hany, if_true]
      exact dictGet_overwrite_miss d k k' v hk

/-- The batch loop calls `get_patient_info` exactly once per element of the
input list, in order. -/
theorem batch_trace_calls (lookup : String → Option Payload) :
    ∀ (ids : List String) (acc : List (String × Payload)),
    (get_patients_batch_trace lookup ids acc).2 = ids := by
  intro ids
  induction ids with
  | nil => intro acc; rfl
  | cons patient_id rest ih =>
    intro acc
    simp [get_patients_batch_trace, ih]

/-- Accumulator invariant of the batch loop: a key reads the looked-up
payload when it occurs in the processed ids and its lookup is truthy, the
previous accumulator value otherwise. -/
theorem batch_aux_get (lookup : String → Option Payload) :
    ∀ (ids : List String) (acc : List (String × Payload)) (pid : String),
    dictGet (get_patients_batch_trace lookup ids acc).1 pid =
      if pid ∈ ids ∧ (truthyLookup lookup pid).isSome
      then truthyLookup lookup pid
      else dictGet acc pid := by
  intro ids
  induction ids with
  | nil =>
    intro acc pid
    simp [get_patients_batch_trace]
  | cons h t ih =>
    intro acc pid
    have hstep : (get_patients_batch_trace lookup (h :: t) acc).1 =
        (get_patients_batch_trace lookup t
          (match truthyLookup lookup h with
           | some p => dictSet acc h p
           | none => acc)).1 := by
      simp only [get_patients_batch_trace, truthyLookup]
      cases lookup h with
      | none => rfl
      | some p =>
        by_cases hp : p.isEmpty <;> simp [hp]
    rw [hstep, ih]
    by_cases hm : pid ∈ h :: t ∧ (truthyLookup lookup pid).isSome
    · rw [if_pos hm]
      rcases hm with ⟨hmem, hsome⟩
      by_cases ht : pid ∈ t ∧ (truthyLookup lookup pid).isSome
      · rw [if_pos ht]
      · rw [if_neg ht]
        have hph : pid = h := by
          rcases List.mem_cons.mp hmem with he | ht'
          · exact he
          · exact absurd ⟨ht', hsome⟩ ht
        subst hph
        cases htr : truthyLookup lookup pid with
        | none => rw [htr] at hsome; simp at hsome
        | some p =>
          simp only [htr]
          rw [dictGet_dictSet, if_pos rfl]
    · rw [if_neg hm]
      have ht : ¬(pid ∈ t ∧ (truthyLookup lookup pid).isSome) := by
        intro ⟨ht', hs⟩
        exact hm ⟨List.mem_cons_of_mem h ht', hs⟩
      rw [if_neg ht]
      cases htr : truthyLookup lookup h with
      | none => rfl
      | some p =>
        rw [dictGet_dictSet]
        have hne : pid ≠ h := by
          intro he
          subst he
          cases htr' : truthyLookup lookup pid with
          | none => rw [htr'] at htr; cases htr
          | some q => exact hm ⟨List.mem_cons_self pid t, by rw [htr']; rfl⟩
        rw [if_neg hne]

/-- Counterexample to claim C9: `get_patients_batch` performs one lookup per
element of the input list, not one per distinct identifier — the duplicated
id "a" is looked up twice — and an identifier whose lookup returns the empty
payload (a payload, not an absence) is omitted from the mapping. -/
theorem get_patients_batch_cex :
    (get_patients_batch_trace (fun _ => some [("name", "Ana")]) ["a", "a"] []).2 =
      ["a", "a"] ∧
    ((get_patients_batch_trace (fun _ => some [("name", "Ana")]) ["a", "a"] []).2.filter
      (fun x => x == "a")).length = 2 ∧
    (fun _ : String => some ([] : Payload)) "b" = some [] ∧
    dictGet (get_patients_batch (fun _ => some ([] : Payload)) ["b"]) "b" = none := by
  refine ⟨rfl, rfl, rfl, rfl⟩

/-- Claim C9 as amended: the batch helper performs the patient lookup once
per element of the input list, in order (its caller
`enrich_reports_with_patient_data` deduplicates ids before calling, so once
per distinct identifier in that flow), and the returned mapping reads back
exactly the identifiers of the list whose lookup returned a payload that is
truthy (non-empty), omitting identifiers that resolved to absent or to an
empty payload. -/
theorem get_patients_batch_spec (lookup : String → Option Payload)
    (ids : List String) :
    (get_patients_batch_trace lookup ids []).2 = ids ∧
    ∀ pid : String, dictGet (get_patients_batch lookup ids) pid =
      if pid ∈ ids then truthyLookup lookup pid else none := by
  refine ⟨batch_trace_calls lookup ids [], fun pid => ?_⟩
  rw [get_patients_batch, batch_aux_get lookup ids [] pid]
  by_cases hmem : pid ∈ ids
  · rw [if_pos hmem]
    cases htr : truthyLookup lookup pid with
    | none => simp [htr, dictGet]
    | some p => simp [htr, hmem]
  · simp [hmem, dictGet]

/-- Claim C10: `ReportResponseDTO.from_model` maps a stored allele frequency
of exactly 0 to an absent (`None`) response field — the whole response is
identical to the one built from the same report with no stored frequency —
while any nonzero stored frequency is carried through as its numeric
value. -/
theorem report_response_zero_allele_frequency (report : PatientVariantReport)
    (variant : GeneticVariant) (gene : Gene) (patient_data : Option Payload) :
    (report.allele_frequency = some 0 →
      (ReportResponseDTO.from_model report variant gene patient_data).allele_frequency =
        none ∧
      ReportResponseDTO.from_model report variant gene patient_data =
        ReportResponseDTO.from_model { report with allele_frequency := none }
          variant gene patient_data) ∧
    (∀ q : ℚ, report.allele_frequency = some q → q ≠ 0 →
      (ReportResponseDTO.from_model report variant gene patient_data).allele_frequency =
        some q) := by
  constructor
  · intro h
    constructor
    · simp [ReportResponseDTO.from_model, h]
    · simp [ReportResponseDTO.from_model, h]
  · intro q h hq
    simp [ReportResponseDTO.from_model, h, hq]

/-- Witness for C10: a report stored with frequency 0 responds with `None`,
exactly like the frequency-free report, while 12.5 is carried through. -/
theorem report_response_zero_allele_frequency_witness :
    (⟨"r1", "p1", "v1", ⟨2024, 1, 15⟩, some 0⟩ : PatientVariantReport).allele_frequency =
      some 0 ∧
    (ReportResponseDTO.from_model ⟨"r1", "p1", "v1", ⟨2024, 1, 15⟩, some 0⟩
      sampleVariant sampleGene none).allele_frequency = none ∧
    ReportResponseDTO.from_model ⟨"r1", "p1", "v1", ⟨2024, 1, 15⟩, some 0⟩
        sampleVariant sampleGene none =
      ReportResponseDTO.from_model ⟨"r1", "p1", "v1", ⟨2024, 1, 15⟩, none⟩
        sampleVariant sampleGene none ∧
    (ReportResponseDTO.from_model ⟨"r1", "p1", "v1", ⟨2024, 1, 15⟩, some (25/2)⟩
      sampleVariant sampleGene none).allele_frequency = some (25/2) :=
  ⟨rfl,
    ((report_response_zero_allele_frequency ⟨"r1", "p1", "v1", ⟨2024, 1, 15⟩, some 0⟩
      sampleVariant sampleGene none).1 rfl).1,
    ((report_response_zero_allele_frequency ⟨"r1", "p1", "v1", ⟨2024, 1, 15⟩, some 0⟩
      sampleVariant sampleGene none).1 rfl).2,
    (report_response_zero_allele_frequency ⟨"r1", "p1", "v1", ⟨2024, 1, 15⟩, some (25/2)⟩
      sampleVariant sampleGene none).2 (25/2) rfl (by norm_num)⟩

end GenoSentinel
